import Mathlib

/-!
Verification of the exception-normalization layer of the nest-ms-template
repository.

The embedding covers:
* `ExceptionsFilter.catch` of `src/filters/exception.filter.ts` (the
  request/response transport), modelled as `catchHttp`;
* `ExceptionsFilter.handleRpcException` of the combined HTTP/RPC filter
  (the message-based transport), modelled as `handleRpcException`;
* `CustomException` of `src/exceptions/custom.exception.ts`, modelled as the
  `Exc.custom` constructor;
* `ObjectManipulator.safeDelete` of `src/helpers/object-manipulator.helper.ts`.

JavaScript runtime details that the filters depend on are modelled
explicitly: the truthiness fallbacks `resp.message || exception.message` and
`resp.error || exception.name` (an empty string is falsy, an array is always
truthy), and the fact that reading `.message` on a null response value throws
a TypeError.
-/

namespace NestMs

/-- Severity of a diagnostic log entry. The filters only ever call
`logger.error`; `warn` exists for completeness of the model. -/
inductive Severity
  | error
  | warn
deriving DecidableEq, Repr

/-- One diagnostic log entry: its severity and the optional stack-trace
argument passed to the logger. -/
structure LogEntry where
  severity : Severity
  stack : Option String
deriving DecidableEq, Repr

/-- The `message` field of an exception response body: in the TypeScript
source its type is `string | string[]`. -/
inductive JsMsg
  | str (s : String)
  | arr (xs : List String)
deriving DecidableEq, Repr

/-- Whether a `message` value is an array (`Array.isArray(message)`). -/
def JsMsg.isArr : JsMsg → Bool
  | .str _ => false
  | .arr _ => true

/-- The underlying list of an array-shaped message (only used on the
validation branch, where the message is known to be an array). -/
def JsMsg.toList : JsMsg → List String
  | .str s => [s]
  | .arr xs => xs

/-- The value returned by `exception.getResponse()`: a string, a structured
body with optional `message` and `error` fields, or a null/undefined value
(possible because the constructor argument is not runtime-checked). -/
inductive ExcResponse
  | strResp (s : String)
  | objResp (message : Option JsMsg) (error : Option String)
  | nullResp
deriving DecidableEq, Repr

/-- Which HttpException subclass the exception is an instance of; the filters
only ever test `instanceof BadRequestException`. -/
inductive HttpCls
  | badRequest
  | otherHttp
deriving DecidableEq, Repr

/-- Whether the class test `exception instanceof BadRequestException`
succeeds. -/
def HttpCls.isBadRequest : HttpCls → Bool
  | .badRequest => true
  | .otherHttp => false

/-- The error payload thrown by `handleRpcException` in the HTTP-exception
and unclassified branches: `{statusCode, message, error, timestamp}`. -/
structure RpcEnvelope where
  statusCode : Nat
  message : String
  error : List String
  timestamp : String
deriving DecidableEq, Repr

/-- The payload carried by an `RpcException` (`getError()`): either the
`{status, message}` object built by `CustomException`, a full envelope built
by a previous normalization pass, or a bare string. -/
inductive RpcPayload
  | statusMsg (status : Nat) (message : String)
  | env (e : RpcEnvelope)
  | strPayload (s : String)
deriving DecidableEq, Repr

/-- A failure value reaching the filter boundary (`exception : unknown`).
`http` is an `HttpException` (carrying its class, `getStatus()`, `name`,
`message` and `getResponse()`), `custom` is a `CustomException` (which
extends `RpcException`, hence is not an `HttpException`), `rpc` is any other
`RpcException`, `jsError` is a plain runtime `Error`, and `otherVal` is any
thrown non-Error value. Error instances carry their optional stack trace. -/
inductive Exc
  | http (cls : HttpCls) (status : Nat) (name excMessage : String) (resp : ExcResponse)
  | custom (status : Nat) (message : String) (stack : Option String)
  | rpc (payload : RpcPayload) (stack : Option String)
  | jsError (message : String) (stack : Option String)
  | otherVal (repr : String)
deriving DecidableEq, Repr

/-- The test `exception instanceof HttpException`. `CustomException` and
`RpcException` extend `Error`, not `HttpException`. -/
def isHttpExc : Exc → Bool
  | .http _ _ _ _ _ => true
  | _ => false

/-- The value of `exception instanceof Error ? exception.stack : undefined`:
every exception class except a bare thrown non-Error value is an `Error`. -/
def stackOf : Exc → Option String
  | .http _ _ _ _ _ => none
  | .custom _ _ st => st
  | .rpc _ st => st
  | .jsError _ st => st
  | .otherVal _ => none

/-- JavaScript `resp.message || exception.message`: the fallback fires when
the field is absent or the empty string; an array (even empty) is truthy. -/
def jsOrMsg : Option JsMsg → String → JsMsg
  | none, fallback => .str fallback
  | some (.str s), fallback => if s = "" then .str fallback else .str s
  | some (.arr xs), _ => .arr xs

/-- JavaScript `resp.error || exception.name`: the fallback fires when the
field is absent or the empty string. -/
def jsOrStr : Option String → String → String
  | none, fallback => fallback
  | some s, fallback => if s = "" then fallback else s

/-- The incoming request, as read by the HTTP filter (`request.url`,
`request.method`). -/
structure Req where
  url : String
  method : String
deriving DecidableEq, Repr

/-- The JSON body written by the HTTP filter (`errorResponse`). -/
structure HttpEnvelope where
  statusCode : Nat
  timestamp : String
  path : String
  method : String
  message : JsMsg
  errors : List String
deriving DecidableEq, Repr

/-- The observable outcome of one successful HTTP-filter invocation: the
status passed to `response.status(...)`, the JSON body, and the log entries
emitted. -/
structure HttpResult where
  respStatus : Nat
  body : HttpEnvelope
  logs : List LogEntry
deriving DecidableEq, Repr

/-- A JavaScript runtime error raised by the filter code itself. -/
inductive JsCrash
  | typeError
deriving DecidableEq, Repr

instance {α β : Type} [DecidableEq α] [DecidableEq β] : DecidableEq (Except α β) := fun x y =>
  match x, y with
  | .ok a, .ok b =>
    if h : a = b then .isTrue (by rw [h]) else .isFalse (by intro hh; cases hh; exact h rfl)
  | .error a, .error b =>
    if h : a = b then .isTrue (by rw [h]) else .isFalse (by intro hh; cases hh; exact h rfl)
  | .ok _, .error _ => .isFalse (by intro hh; cases hh)
  | .error _, .ok _ => .isFalse (by intro hh; cases hh)

/-- The constant internal-error body of the unclassified branch of
`ExceptionsFilter.catch`; it depends only on the request and the clock,
never on the failure. -/
def internalBody (req : Req) (now : String) : HttpEnvelope :=
  { statusCode := 500
    timestamp := now
    path := req.url
    method := req.method
    message := .str "Internal server error"
    errors := ["Internal Server Error"] }

/-- Embedding of `ExceptionsFilter.catch` from
`src/filters/exception.filter.ts`. The parameter `now` models the clock
(`new Date().toISOString()`). Reading `.message` on a null response value
throws a TypeError, modelled as `.error .typeError`. -/
def catchHttp (req : Req) (now : String) (exception : Exc) : Except JsCrash HttpResult :=
  let logCaught : LogEntry := ⟨.error, none⟩
  match exception with
  | .http cls status name excMessage resp =>
    match resp with
    | .nullResp => .error .typeError
    | .strResp s =>
      let message : JsMsg := .str s
      let error : String := name
      let isValidationError := cls.isBadRequest && message.isArr
      let finalMessage := if isValidationError then JsMsg.str "Validation error" else message
      let finalErrors := if isValidationError then message.toList else [error]
      .ok ⟨status,
        { statusCode := status, timestamp := now, path := req.url, method := req.method
          message := finalMessage, errors := finalErrors },
        [logCaught, ⟨.error, none⟩]⟩
    | .objResp m er =>
      let message : JsMsg := jsOrMsg m excMessage
      let error : String := jsOrStr er name
      let isValidationError := cls.isBadRequest && message.isArr
      let finalMessage := if isValidationError then JsMsg.str "Validation error" else message
      let finalErrors := if isValidationError then message.toList else [error]
      .ok ⟨status,
        { statusCode := status, timestamp := now, path := req.url, method := req.method
          message := finalMessage, errors := finalErrors },
        [logCaught, ⟨.error, none⟩]⟩
  | e =>
    .ok ⟨500, internalBody req now, [logCaught, ⟨.error, stackOf e⟩]⟩

/-- Embedding of `ExceptionsFilter.handleRpcException` from the combined
HTTP/RPC filter. The result is the payload of the `RpcException` the handler
throws, paired with the log entries it emits. -/
def handleRpcException (now : String) (exception : Exc) : Except JsCrash (RpcPayload × List LogEntry) :=
  match exception with
  | .custom status message _ => .ok (.statusMsg status message, [])
  | .rpc p _ => .ok (p, [])
  | .http cls status name excMessage resp =>
    match resp with
    | .nullResp => .error .typeError
    | .strResp s =>
      let message : JsMsg := .str s
      let error : String := name
      let isValidationError := cls.isBadRequest && message.isArr
      let finalMessage := if isValidationError then "Validation error"
        else match message with | .str t => t | .arr _ => "Error"
      let finalErrors := if isValidationError then message.toList else [error]
      .ok (.env ⟨status, finalMessage, finalErrors, now⟩, [⟨.error, none⟩])
    | .objResp m er =>
      let message : JsMsg := jsOrMsg m excMessage
      let error : String := jsOrStr er name
      let isValidationError := cls.isBadRequest && message.isArr
      let finalMessage := if isValidationError then "Validation error"
        else match message with | .str t => t | .arr _ => "Error"
      let finalErrors := if isValidationError then message.toList else [error]
      .ok (.env ⟨status, finalMessage, finalErrors, now⟩, [⟨.error, none⟩])
  | e =>
    .ok (.env ⟨500, "Internal server error", ["Internal Server Error"], now⟩,
      [⟨.error, stackOf e⟩])

/-- The `BadRequestException` thrown by the global `ValidationPipe` for a
list of per-field validation messages: its response body is
`{message: msgs, error: 'Bad Request', statusCode: 400}` with status 400. -/
def validationException (msgs : List String) : Exc :=
  .http .badRequest 400 "BadRequestException" "Bad Request Exception"
    (.objResp (some (.arr msgs)) (some "Bad Request"))

/-- A concrete request used for witnesses. -/
def defaultReq : Req := ⟨"/test", "GET"⟩

/-- The response status of an HTTP-filter outcome (0 when the filter
crashed and wrote nothing). -/
def respStatusOf : Except JsCrash HttpResult → Nat
  | .ok r => r.respStatus
  | .error _ => 0

/-- The `statusCode` field of the body of an HTTP-filter outcome (0 when the
filter crashed and wrote nothing). -/
def statusCodeOf : Except JsCrash HttpResult → Nat
  | .ok r => r.body.statusCode
  | .error _ => 0

/-- The `message` field of the body of an HTTP-filter outcome. -/
def messageOf : Except JsCrash HttpResult → JsMsg
  | .ok r => r.body.message
  | .error _ => .str ""

/-- The `errors` field of the body of an HTTP-filter outcome. -/
def errorsOf : Except JsCrash HttpResult → List String
  | .ok r => r.body.errors
  | .error _ => []

/-- The number of log entries emitted by a completed HTTP-filter
invocation. -/
def logCountOf : Except JsCrash HttpResult → Nat
  | .ok r => r.logs.length
  | .error _ => 0

/-- Whether the HTTP filter completed (returned a response) rather than
crashing. -/
def isOkResult : Except JsCrash HttpResult → Bool
  | .ok _ => true
  | .error _ => false

/-- Whether the thrown RPC payload is an envelope (carries `statusCode`,
`message`, `error`, `timestamp` fields). -/
def rpcIsEnv : Except JsCrash (RpcPayload × List LogEntry) → Bool
  | .ok (.env _, _) => true
  | _ => false

/-- Whether the exception is an `HttpException` whose response body is
null/undefined, the only input on which the filters throw on their own. -/
def hasNullResp : Exc → Bool
  | .http _ _ _ _ .nullResp => true
  | _ => false

/-- Whether the exception is a `BadRequestException` whose response carries
an empty array of messages: the one shape producing an empty `errors`
field. -/
def isEmptyArrValidation : Exc → Bool
  | .http .badRequest _ _ _ (.objResp (some (.arr [])) _) => true
  | _ => false

/-- Whether the exception falls to the unclassified branch of
`handleRpcException` (not a CustomException, RpcException, or
HttpException). -/
def isRpcUnclassified : Exc → Bool
  | .jsError _ _ => true
  | .otherVal _ => true
  | _ => false

/-- Whether every log entry of a completed invocation is at error
severity. -/
def logsAllError : Except JsCrash HttpResult → Bool
  | .ok r => r.logs.all (fun l => match l.severity with | .error => true | .warn => false)
  | .error _ => false

/-- An argument passed to `ObjectManipulator.safeDelete` in place of the
object: null, undefined, a non-object primitive (with its truthiness), or an
object with its own property keys `fields`, the keys `proto` reachable only
through its prototype chain (JavaScript's `in` operator sees both), and the
subset `frozen` of own keys that are non-configurable (strict-mode `delete`
throws on them; the source catches that error). -/
inductive JsArg
  | nullArg
  | undefArg
  | primArg (truthy : Bool)
  | objArg (fields : List String) (proto : List String) (frozen : List String)
deriving DecidableEq, Repr

/-- Embedding of `ObjectManipulator.safeDelete` from
`src/helpers/object-manipulator.helper.ts`: the returned flag paired with
the (possibly mutated) object. A falsy or non-object argument returns false.
The guard `!(key in obj)` walks the prototype chain, so a key that is
neither an own nor an inherited property returns false. Past the guard,
`delete obj[key]` removes an own configurable key and returns true, throws
on an own non-configurable key (caught, returning false), and is a
successful no-op on a key that is only inherited, so the source returns true
without deleting anything. -/
def safeDelete : JsArg → String → Bool × JsArg
  | .nullArg, _ => (false, .nullArg)
  | .undefArg, _ => (false, .undefArg)
  | .primArg t, _ => (false, .primArg t)
  | .objArg fields proto frozen, key =>
    if key ∈ fields ∨ key ∈ proto then
      if key ∈ fields then
        if key ∈ frozen then (false, .objArg fields proto frozen)
        else (true, .objArg (fields.filter (fun f => f != key)) proto frozen)
      else (true, .objArg fields proto frozen)
    else (false, .objArg fields proto frozen)

/-- The own property keys of a `safeDelete` argument (empty for
non-objects). -/
def keysOf : JsArg → List String
  | .objArg fields _ _ => fields
  | _ => []

/-- The keys visible only through the prototype chain (empty for
non-objects). -/
def protoKeysOf : JsArg → List String
  | .objArg _ proto _ => proto
  | _ => []

/-- The non-configurable own keys (empty for non-objects). -/
def frozenOf : JsArg → List String
  | .objArg _ _ frozen => frozen
  | _ => []

/-- Whether the argument passes the `!obj || typeof obj !== 'object'`
guard, i.e. is a genuine object. -/
def isObjArg : JsArg → Bool
  | .objArg _ _ _ => true
  | _ => false

/-- Claim C1 counterexample: the DomainException `CustomException(403,
"Resource disabled")` does not yield an envelope with statusCode 403 —
the request/response filter classifies it as unclassified and answers 500,
and the message-based handler re-raises the bare `{status, message}` payload,
which carries no `errors` field at all. -/
theorem domain_envelope_counterexample :
    statusCodeOf (catchHttp defaultReq "T" (.custom 403 "Resource disabled" none)) = 500
    ∧ statusCodeOf (catchHttp defaultReq "T" (.custom 403 "Resource disabled" none)) ≠ 403
    ∧ handleRpcException "T" (.custom 403 "Resource disabled" none) =
        .ok (.statusMsg 403 "Resource disabled", [])
    ∧ rpcIsEnv (handleRpcException "T" (.custom 403 "Resource disabled" none)) = false := by
  refine ⟨rfl, by decide, rfl, rfl⟩

/-- Claim C1 amended: a `CustomException` with status S and non-empty message
M is, in the message-based transport, re-raised as an `RpcException` whose
payload is exactly `{status: S, message: M}`; no `errors` array is attached,
and in the request/response transport the same failure falls to the
unclassified 500 branch. -/
theorem customException_rpc_payload (s : Nat) (m : String) (st : Option String) (now : String)
    (_hm : m ≠ "") :
    handleRpcException now (.custom s m st) = .ok (.statusMsg s m, []) := rfl

/-- Claim C1 witness: the amended statement at the concrete scenario-A
input. -/
theorem customException_rpc_payload_witness :
    "Resource disabled" ≠ ""
    ∧ handleRpcException "T" (.custom 403 "Resource disabled" none) =
        .ok (.statusMsg 403 "Resource disabled", []) :=
  ⟨by decide, customException_rpc_payload 403 "Resource disabled" none "T" (by decide)⟩

/-- Claim C2: a `BadRequestException` produced by the validation pipe with N
messages (N ≥ 2) yields the envelope with statusCode 400, message
"Validation error" and `errors` equal to the N messages in their original
order. -/
theorem validation_multi_message_envelope (msgs : List String) (req : Req) (now : String)
    (_hlen : 2 ≤ msgs.length) :
    catchHttp req now (validationException msgs) =
      .ok ⟨400, ⟨400, now, req.url, req.method, .str "Validation error", msgs⟩,
        [⟨.error, none⟩, ⟨.error, none⟩]⟩ := rfl

/-- Claim C2 witness: the concrete scenario-B input with its two validation
messages. -/
theorem validation_multi_message_envelope_witness :
    2 ≤ (["test must not be empty", "test must be at least 5 characters long"] : List String).length
    ∧ catchHttp defaultReq "T"
        (validationException ["test must not be empty", "test must be at least 5 characters long"]) =
      .ok ⟨400, ⟨400, "T", "/test", "GET", .str "Validation error",
          ["test must not be empty", "test must be at least 5 characters long"]⟩,
        [⟨.error, none⟩, ⟨.error, none⟩]⟩ :=
  ⟨by decide,
    validation_multi_message_envelope
      ["test must not be empty", "test must be at least 5 characters long"]
      defaultReq "T" (by decide)⟩

/-- Claim C3: every unclassified failure produces the constant
internal-error envelope — statusCode 500, message "Internal server error",
detail list ["Internal Server Error"] — on both transports; the body
`internalBody req now` does not mention the failure at all, so its message
and stack trace cannot leak into any envelope field (the stack only reaches
the log entry). -/
theorem unclassified_constant_envelope (e : Exc) (req : Req) (now : String) :
    (isHttpExc e = false →
      catchHttp req now e =
        .ok ⟨500, internalBody req now, [⟨.error, none⟩, ⟨.error, stackOf e⟩]⟩)
    ∧ (isRpcUnclassified e = true →
      handleRpcException now e =
        .ok (.env ⟨500, "Internal server error", ["Internal Server Error"], now⟩,
          [⟨.error, stackOf e⟩])) := by
  cases e <;> refine ⟨fun h => ?_, fun h => ?_⟩ <;>
    first
      | rfl
      | exact Bool.noConfusion h

/-- Claim C3 witness: a raw runtime fault with message "This is a test
error" and a stack trace; both transports answer the constant 500 envelope
and neither envelope field contains the fault's message or stack. -/
theorem unclassified_constant_envelope_witness :
    (isHttpExc (.jsError "This is a test error" (some "stack trace")) = false
      ∧ catchHttp defaultReq "T" (.jsError "This is a test error" (some "stack trace")) =
          .ok ⟨500, internalBody defaultReq "T", [⟨.error, none⟩, ⟨.error, some "stack trace"⟩]⟩)
    ∧ (isRpcUnclassified (.jsError "This is a test error" (some "stack trace")) = true
      ∧ handleRpcException "T" (.jsError "This is a test error" (some "stack trace")) =
          .ok (.env ⟨500, "Internal server error", ["Internal Server Error"], "T"⟩,
            [⟨.error, some "stack trace"⟩])) :=
  ⟨⟨by decide,
      (unclassified_constant_envelope (.jsError "This is a test error" (some "stack trace"))
        defaultReq "T").1 (by decide)⟩,
    ⟨by decide,
      (unclassified_constant_envelope (.jsError "This is a test error" (some "stack trace"))
        defaultReq "T").2 (by decide)⟩⟩

/-- Claim C4: re-normalizing an already-normalized failure on the
message-based transport is the identity: `handleRpcException` re-raises any
`RpcException` unchanged, so the payload (the envelope of the earlier pass)
comes back exactly as carried, and no further log entry is emitted. -/
theorem rpc_renormalize_passthrough (p : RpcPayload) (st : Option String) (now : String) :
    handleRpcException now (.rpc p st) = .ok (p, []) := rfl

/-- Claim C5 counterexample: the HTTP filter logs twice, not once, on an
unclassified failure — the unconditional "Exception caught" entry plus the
branch entry — so an invocation does not emit exactly one diagnostic log
entry. -/
theorem single_log_entry_counterexample :
    logCountOf (catchHttp defaultReq "T" (.jsError "This is a test error" (some "trace"))) ≠ 1
    ∧ logCountOf (catchHttp defaultReq "T" (.jsError "This is a test error" (some "trace"))) = 2 := by
  exact ⟨by decide, rfl⟩

/-- Claim C5 amended: every invocation of the HTTP filter that completes
emits exactly two diagnostic log entries, and all of them are at error
severity — DomainException and validation failures are not logged at a
lower severity than unclassified ones. -/
theorem http_filter_two_error_logs (e : Exc) (req : Req) (now : String)
    (h : isOkResult (catchHttp req now e) = true) :
    logCountOf (catchHttp req now e) = 2 ∧ logsAllError (catchHttp req now e) = true := by
  cases e with
  | http cls status name excMessage resp =>
    cases resp with
    | nullResp => exact Bool.noConfusion h
    | strResp s => exact ⟨rfl, rfl⟩
    | objResp m er => exact ⟨rfl, rfl⟩
  | custom status message st => exact ⟨rfl, rfl⟩
  | rpc p st => exact ⟨rfl, rfl⟩
  | jsError m st => exact ⟨rfl, rfl⟩
  | otherVal s => exact ⟨rfl, rfl⟩

/-- Claim C5 witness: the amended statement at a concrete validation
failure. -/
theorem http_filter_two_error_logs_witness :
    isOkResult (catchHttp defaultReq "T" (validationException ["a", "b"])) = true
    ∧ (logCountOf (catchHttp defaultReq "T" (validationException ["a", "b"])) = 2
      ∧ logsAllError (catchHttp defaultReq "T" (validationException ["a", "b"])) = true) :=
  ⟨by decide, http_filter_two_error_logs (validationException ["a", "b"]) defaultReq "T" (by decide)⟩

/-- Claim C6 counterexample: a ForbiddenException (not a
BadRequestException) carrying an array-shaped message is not treated as the
validation case on either transport — the request/response envelope keeps
the raw array as its message, the message-based envelope replaces it by the
literal "Error", and on both the detail field is the class-name singleton,
not the sequence. -/
theorem array_message_counterexample :
    messageOf (catchHttp defaultReq "T"
        (.http .otherHttp 403 "ForbiddenException" "Forbidden"
          (.objResp (some (.arr ["a", "b"])) none))) ≠ .str "Validation error"
    ∧ errorsOf (catchHttp defaultReq "T"
        (.http .otherHttp 403 "ForbiddenException" "Forbidden"
          (.objResp (some (.arr ["a", "b"])) none))) = ["ForbiddenException"]
    ∧ handleRpcException "T"
        (.http .otherHttp 403 "ForbiddenException" "Forbidden"
          (.objResp (some (.arr ["a", "b"])) none)) =
      .ok (.env ⟨403, "Error", ["ForbiddenException"], "T"⟩, [⟨.error, none⟩]) := by
  exact ⟨by decide, rfl, rfl⟩

/-- Claim C6 amended: on both transports an array-shaped message is treated
as the validation case exactly when the failure class is
`BadRequestException`: then the envelope is ("Validation error", the
sequence). For any other HttpException class the request/response filter
passes the array through as the envelope message, while the message-based
handler replaces it by the literal "Error"; on both transports the detail
field is then the error-label singleton, not the sequence. -/
theorem array_message_validation_iff_badRequest (status : Nat) (name excMessage : String)
    (er : Option String) (msgs : List String) (req : Req) (now : String) :
    catchHttp req now (.http .badRequest status name excMessage (.objResp (some (.arr msgs)) er)) =
      .ok ⟨status, ⟨status, now, req.url, req.method, .str "Validation error", msgs⟩,
        [⟨.error, none⟩, ⟨.error, none⟩]⟩
    ∧ catchHttp req now (.http .otherHttp status name excMessage (.objResp (some (.arr msgs)) er)) =
      .ok ⟨status, ⟨status, now, req.url, req.method, .arr msgs, [jsOrStr er name]⟩,
        [⟨.error, none⟩, ⟨.error, none⟩]⟩
    ∧ handleRpcException now
        (.http .badRequest status name excMessage (.objResp (some (.arr msgs)) er)) =
      .ok (.env ⟨status, "Validation error", msgs, now⟩, [⟨.error, none⟩])
    ∧ handleRpcException now
        (.http .otherHttp status name excMessage (.objResp (some (.arr msgs)) er)) =
      .ok (.env ⟨status, "Error", [jsOrStr er name], now⟩, [⟨.error, none⟩]) :=
  ⟨rfl, rfl, rfl, rfl⟩

/-- Claim C7 counterexample: an HttpException whose `getResponse()` value is
null breaks the filter itself — reading `.message` on null throws a
TypeError instead of falling through to the unclassified branch, so no
envelope is returned. -/
theorem null_response_crash_counterexample :
    catchHttp defaultReq "T" (.http .otherHttp 400 "HttpException" "oops" .nullResp) =
      .error .typeError
    ∧ isOkResult (catchHttp defaultReq "T" (.http .otherHttp 400 "HttpException" "oops" .nullResp)) =
      false :=
  ⟨rfl, rfl⟩

/-- Claim C7 amended: the filter returns an envelope for every failure value
except an HttpException carrying a null/undefined response body (where the
property access itself throws); in particular every non-HttpException input
falls through to the unclassified branch and gets an envelope. -/
theorem catch_total_without_null_response (e : Exc) (req : Req) (now : String)
    (h : hasNullResp e = false) :
    isOkResult (catchHttp req now e) = true := by
  cases e with
  | http cls status name excMessage resp =>
    cases resp with
    | nullResp => exact Bool.noConfusion h
    | strResp s => rfl
    | objResp m er => rfl
  | custom status message st => rfl
  | rpc p st => rfl
  | jsError m st => rfl
  | otherVal s => rfl

/-- Claim C7 witness: the amended statement at a raw runtime fault. -/
theorem catch_total_without_null_response_witness :
    hasNullResp (.jsError "boom" none) = false
    ∧ isOkResult (catchHttp defaultReq "T" (.jsError "boom" none)) = true :=
  ⟨by decide, catch_total_without_null_response (.jsError "boom" none) defaultReq "T" (by decide)⟩

/-- Claim C8 counterexample: a BadRequestException whose response message is
the empty array is classified as a validation failure and yields an envelope
whose `errors` field is empty, even though the filter did complete and
produce an envelope. -/
theorem empty_errors_counterexample :
    errorsOf (catchHttp defaultReq "T"
        (.http .badRequest 400 "BadRequestException" "Bad Request"
          (.objResp (some (.arr [])) (some "Bad Request")))) = []
    ∧ isOkResult (catchHttp defaultReq "T"
        (.http .badRequest 400 "BadRequestException" "Bad Request"
          (.objResp (some (.arr [])) (some "Bad Request")))) = true :=
  ⟨rfl, rfl⟩

/-- Claim C8 amended: for every failure except a BadRequestException
carrying an empty array of messages, a completed invocation of the HTTP
filter produces an envelope whose `errors` field is non-empty (the
class-name or generic label when no detail is available). -/
theorem errors_nonempty (e : Exc) (req : Req) (now : String)
    (hv : isEmptyArrValidation e = false)
    (hok : isOkResult (catchHttp req now e) = true) :
    errorsOf (catchHttp req now e) ≠ [] := by
  cases e with
  | http cls status name excMessage resp =>
    cases resp with
    | nullResp => exact Bool.noConfusion hok
    | strResp s =>
      cases cls <;> simp [catchHttp, errorsOf, HttpCls.isBadRequest, JsMsg.isArr]
    | objResp m er =>
      cases cls with
      | otherHttp =>
        simp [catchHttp, errorsOf, HttpCls.isBadRequest]
      | badRequest =>
        cases m with
        | none => simp [catchHttp, errorsOf, HttpCls.isBadRequest, jsOrMsg, JsMsg.isArr]
        | some msg =>
          cases msg with
          | str s =>
            by_cases hs : s = "" <;>
              simp [catchHttp, errorsOf, HttpCls.isBadRequest, jsOrMsg, hs, JsMsg.isArr]
          | arr xs =>
            cases xs with
            | nil => exact Bool.noConfusion hv
            | cons y ys =>
              simp [catchHttp, errorsOf, HttpCls.isBadRequest, jsOrMsg, JsMsg.isArr,
                JsMsg.toList]
  | custom status message st => simp [catchHttp, errorsOf, internalBody]
  | rpc p st => simp [catchHttp, errorsOf, internalBody]
  | jsError m st => simp [catchHttp, errorsOf, internalBody]
  | otherVal s => simp [catchHttp, errorsOf, internalBody]

/-- Claim C8 witness: the amended statement at a two-message validation
failure. -/
theorem errors_nonempty_witness :
    isEmptyArrValidation (validationException ["a", "b"]) = false
    ∧ errorsOf (catchHttp defaultReq "T" (validationException ["a", "b"])) ≠ [] :=
  ⟨by decide, errors_nonempty (validationException ["a", "b"]) defaultReq "T"
    (by decide) (by decide)⟩

/-- Claim C9: for every input failure, the status passed to
`response.status(...)` equals the `statusCode` field of the JSON body
written for that same failure (both projections also agree, vacuously, when
the filter crashes and writes nothing). -/
theorem response_status_matches_body (e : Exc) (req : Req) (now : String) :
    respStatusOf (catchHttp req now e) = statusCodeOf (catchHttp req now e) := by
  cases e with
  | http cls status name excMessage resp => cases resp <;> rfl
  | custom status message st => rfl
  | rpc p st => rfl
  | jsError m st => rfl
  | otherVal s => rfl

/-- Claim C10 counterexample: for a key that is reachable only through the
prototype chain (here an object with no own properties but an inherited
"toString"), the `key in obj` guard passes and strict-mode `delete` is a
successful no-op, so `safeDelete` returns true while the object is
unchanged and nothing was deleted — refuting "returns true exactly when the
key was present and deleted". -/
theorem safeDelete_inherited_counterexample :
    (safeDelete (JsArg.objArg [] ["toString"] []) "toString").1 = true
    ∧ (safeDelete (JsArg.objArg [] ["toString"] []) "toString").2 =
        JsArg.objArg [] ["toString"] [] :=
  ⟨rfl, rfl⟩

/-- Claim C10 amended: `safeDelete` is total and never throws (the one
throwing operation, strict-mode `delete` on a non-configurable own key, is
caught and mapped to false). It returns false when the argument is
null/undefined/not an object and when the key is neither an own nor an
inherited property; it returns true exactly when the key is an own
configurable property (which is then removed) or is visible only through
the prototype chain (where `delete` is a successful no-op and nothing is
removed); in all other cases the object is unchanged. -/
theorem safeDelete_total_characterization (a : JsArg) (k : String) :
    ((isObjArg a = false ∨ (k ∉ keysOf a ∧ k ∉ protoKeysOf a)) → (safeDelete a k).1 = false)
    ∧ ((safeDelete a k).1 = true ↔
        ((k ∈ keysOf a ∧ k ∉ frozenOf a) ∨ (k ∉ keysOf a ∧ k ∈ protoKeysOf a)))
    ∧ (k ∈ keysOf a ∧ k ∉ frozenOf a →
        keysOf (safeDelete a k).2 = (keysOf a).filter (fun f => f != k))
    ∧ (k ∉ keysOf a → (safeDelete a k).2 = a) := by
  cases a with
  | nullArg => simp [safeDelete, keysOf, protoKeysOf, frozenOf]
  | undefArg => simp [safeDelete, keysOf, protoKeysOf, frozenOf]
  | primArg t => simp [safeDelete, keysOf, protoKeysOf, frozenOf]
  | objArg fields proto frozen =>
    by_cases hk : k ∈ fields
    · by_cases hf : k ∈ frozen
      · simp [safeDelete, keysOf, protoKeysOf, frozenOf, isObjArg, hk, hf]
      · simp [safeDelete, keysOf, protoKeysOf, frozenOf, isObjArg, hk, hf]
    · by_cases hp : k ∈ proto
      · simp [safeDelete, keysOf, protoKeysOf, frozenOf, isObjArg, hk, hp]
      · simp [safeDelete, keysOf, protoKeysOf, frozenOf, isObjArg, hk, hp]

/-- Claim C10 witness: concrete instances — deleting an own configurable
key returns true, and a null argument returns false. -/
theorem safeDelete_total_characterization_witness :
    (safeDelete (JsArg.objArg ["a", "b"] [] []) "a").1 = true
    ∧ (safeDelete JsArg.nullArg "a").1 = false :=
  ⟨(safeDelete_total_characterization (JsArg.objArg ["a", "b"] [] []) "a").2.1.mpr
      (Or.inl ⟨by decide, by decide⟩),
    (safeDelete_total_characterization JsArg.nullArg "a").1 (Or.inl (by decide))⟩

end NestMs
